import Mathlib

/-!
Verification of the playback state machine of the CLI music player
(src/music.py), shallowly embedded in Lean 4.

Modelling decisions:
* `PlayerState` mirrors the mutable attributes of class `MusicPlayer`:
  `current_index`, `playing` (a boolean in the source, not a three-state
  enum), `volume`, `start_time` (an `Option`, Python `None` meaning unset)
  and `elapsed_time`.  The loaded catalog `library.songs` is carried in the
  state as an immutable list of `Song` records (name and path), as in class
  `Song` and `MusicLibrary`.
* Wall-clock instants and float-valued fields are modelled over `ℚ`; the
  external clock `time.time()` is injected as an explicit `now` argument.
* The external audio device (pygame.mixer) is modelled by an oracle
  `loadOk : String → Bool` telling, for a path, whether the
  load/set_volume/play sequence inside the `try` block succeeds; a `False`
  answer corresponds to the caught `pygame.error`.  Device calls carry no
  player state of their own.
* Python exceptions that escape a method are modelled by `Except`, whose
  error value carries the exception kind together with the player state at
  the moment the exception propagates (mutations performed before the
  raising statement are kept; a statement that raises while evaluating its
  right-hand side performs no mutation).
-/

namespace Music

/-- A track record, mirroring class `Song` (display name and file path). -/
structure Song where
  name : String
  path : String
deriving DecidableEq, Repr

/-- The mutable attributes set in `MusicPlayer.__init__`, plus the loaded
catalog `library.songs`. -/
structure PlayerState where
  songs : List Song
  current_index : Nat
  playing : Bool
  volume : ℚ
  start_time : Option ℚ
  elapsed_time : ℚ
deriving DecidableEq, Repr

/-- Python exceptions that can escape the transport methods. -/
inductive PyErr where
  | typeError
  | zeroDivisionError
  | indexError
deriving DecidableEq, Repr

/-- How a call to `MusicPlayer.play` finished when no exception escaped:
playback started, the caught `pygame.error` branch printed a message, or
the empty-catalog guard `if self.library.songs:` silently skipped playback. -/
inductive PlayOutcome where
  | started
  | deviceFailed
  | skippedEmpty
deriving DecidableEq, Repr

/-- Result of a method that may let a Python exception escape: the error
value carries the player state at the time the exception propagates. -/
abbrev PlayResult := Except (PyErr × PlayerState) (PlayerState × PlayOutcome)

/-- Result type of `MusicPlayer.pause`. -/
abbrev PauseResult := Except (PyErr × PlayerState) PlayerState

/-- `MusicPlayer.__init__`: index 0, not playing, volume 0.5, no interval
start, zero accumulated elapsed time, with the catalog loaded by
`MusicLibrary`. -/
def MusicPlayer.init (songs : List Song) : PlayerState :=
  { songs := songs
    current_index := 0
    playing := false
    volume := 1/2
    start_time := none
    elapsed_time := 0 }

/-- The first two lines of `MusicPlayer.play`:
`if index is not None: self.current_index = index`. -/
def withIndex (index : Option Nat) (s : PlayerState) : PlayerState :=
  match index with
  | some i => { s with current_index := i }
  | none => s

/-- `MusicPlayer.play(index=None)`.  After the optional index assignment,
the body runs only when `self.library.songs` is non-empty; fetching
`self.library.songs[self.current_index]` raises `IndexError` when the index
is out of range (this fetch is outside the `try`); the `try` block
(load, set_volume, play) is modelled by the `loadOk` oracle, and on success
sets `start_time = now` and `playing = True`.  Note the method never resets
`elapsed_time`. -/
def MusicPlayer.play (loadOk : String → Bool) (now : ℚ) (index : Option Nat)
    (s : PlayerState) : PlayResult :=
  if (withIndex index s).songs.isEmpty then
    .ok (withIndex index s, .skippedEmpty)
  else
    match (withIndex index s).songs[(withIndex index s).current_index]? with
    | none => .error (.indexError, withIndex index s)
    | some song =>
      if loadOk song.path then
        .ok ({ withIndex index s with start_time := some now, playing := true }, .started)
      else
        .ok (withIndex index s, .deviceFailed)

/-- `MusicPlayer.pause`, a toggle.  When `playing` is true it accumulates
`now - start_time` (Python would raise `TypeError` if `start_time` were
`None` there, before any mutation); otherwise it unpauses the device and
opens a new interval. -/
def MusicPlayer.pause (now : ℚ) (s : PlayerState) : PauseResult :=
  if s.playing then
    match s.start_time with
    | none => .error (.typeError, s)
    | some t0 =>
      .ok { s with
              elapsed_time := s.elapsed_time + (now - t0)
              start_time := none
              playing := false }
  else
    .ok { s with start_time := some now, playing := true }

/-- `MusicPlayer.stop`: zero the accumulated time, clear the interval
start, clear the playing flag. -/
def MusicPlayer.stop (s : PlayerState) : PlayerState :=
  { s with elapsed_time := 0, start_time := none, playing := false }

/-- `MusicPlayer.next_song`: stop, then
`self.current_index = (self.current_index + 1) % len(self.library.songs)`
(a `ZeroDivisionError` propagates when the catalog is empty, after `stop`
already ran), then `play()` with no index argument. -/
def MusicPlayer.next_song (loadOk : String → Bool) (now : ℚ)
    (s : PlayerState) : PlayResult :=
  if (MusicPlayer.stop s).songs.length = 0 then
    .error (.zeroDivisionError, MusicPlayer.stop s)
  else
    MusicPlayer.play loadOk now none
      { MusicPlayer.stop s with
          current_index :=
            ((MusicPlayer.stop s).current_index + 1) % (MusicPlayer.stop s).songs.length }

/-- `MusicPlayer.previous_song`: stop, then
`self.current_index = (self.current_index - 1) % len(self.library.songs)`
with Python floor-modulo semantics (the result is non-negative for a
positive divisor, matching integer `emod`), then `play()`. -/
def MusicPlayer.previous_song (loadOk : String → Bool) (now : ℚ)
    (s : PlayerState) : PlayResult :=
  if (MusicPlayer.stop s).songs.length = 0 then
    .error (.zeroDivisionError, MusicPlayer.stop s)
  else
    MusicPlayer.play loadOk now none
      { MusicPlayer.stop s with
          current_index :=
            (((MusicPlayer.stop s).current_index : Int) - 1) %
              ((MusicPlayer.stop s).songs.length : Int) |>.toNat }

/-- `MusicPlayer.change_volume(increase=True)`:
`min(1.0, v + 0.1)` when increasing, `max(0.0, v - 0.1)` when decreasing;
the device `set_volume` call carries no player state. -/
def MusicPlayer.change_volume (increase : Bool) (s : PlayerState) : PlayerState :=
  { s with
      volume := if increase then min 1 (s.volume + 1/10) else max 0 (s.volume - 1/10) }

/-- `MusicPlayer.get_elapsed_time`, a pure query (the Python method performs
no assignment, and the embedding returns only a value, never a new state). -/
def MusicPlayer.get_elapsed_time (now : ℚ) (s : PlayerState) : ℚ :=
  match s.start_time with
  | none => s.elapsed_time
  | some t0 => s.elapsed_time + (if s.playing then now - t0 else 0)

/-- The player state an operation left behind, whether it returned normally
or let an exception escape. -/
def playState (r : PlayResult) : PlayerState :=
  match r with
  | .ok (s, _) => s
  | .error (_, s) => s

/-- Same as `playState` for the result type of `pause`. -/
def pauseState (r : PauseResult) : PlayerState :=
  match r with
  | .ok s => s
  | .error (_, s) => s

/-- The spec invariant: the interval start is set exactly when the playing
flag is up. -/
def StartIffPlaying (s : PlayerState) : Prop :=
  s.playing = s.start_time.isSome

/-- States reachable from a freshly constructed player through the
transport operations, including the states carried out by escaping
exceptions. -/
inductive Reachable : PlayerState → Prop
  | init (songs : List Song) : Reachable (MusicPlayer.init songs)
  | play (loadOk : String → Bool) (now : ℚ) (index : Option Nat) (s : PlayerState) :
      Reachable s → Reachable (playState (MusicPlayer.play loadOk now index s))
  | pause (now : ℚ) (s : PlayerState) :
      Reachable s → Reachable (pauseState (MusicPlayer.pause now s))
  | stop (s : PlayerState) : Reachable s → Reachable (MusicPlayer.stop s)
  | next (loadOk : String → Bool) (now : ℚ) (s : PlayerState) :
      Reachable s → Reachable (playState (MusicPlayer.next_song loadOk now s))
  | prev (loadOk : String → Bool) (now : ℚ) (s : PlayerState) :
      Reachable s → Reachable (playState (MusicPlayer.previous_song loadOk now s))
  | vol (increase : Bool) (s : PlayerState) :
      Reachable s → Reachable (MusicPlayer.change_volume increase s)

/-! ### Claim theorems -/

/-- C10: a freshly constructed player has volume 0.5, the playing flag
down (status Stopped), current index 0, zero accumulated elapsed time and
no interval start. -/
theorem C10_initial_state (songs : List Song) :
    (MusicPlayer.init songs).volume = 1/2 ∧
    (MusicPlayer.init songs).playing = false ∧
    (MusicPlayer.init songs).current_index = 0 ∧
    (MusicPlayer.init songs).elapsed_time = 0 ∧
    (MusicPlayer.init songs).start_time = none :=
  ⟨rfl, rfl, rfl, rfl, rfl⟩

/-- The volume written by an increasing `change_volume` call. -/
theorem change_volume_true (s : PlayerState) :
    (MusicPlayer.change_volume true s).volume = min 1 (s.volume + 1/10) := rfl

/-- The volume written by a decreasing `change_volume` call. -/
theorem change_volume_false (s : PlayerState) :
    (MusicPlayer.change_volume false s).volume = max 0 (s.volume - 1/10) := rfl

/-- C9: `change_volume` adjusts the volume by exactly 0.1 whenever the
adjusted value stays inside `[0, 1]`, clamps it to the touched bound
otherwise, keeps any volume from `[0, 1]` inside `[0, 1]`, yields exactly
1 from 0.95 on an increase and exactly 0 from 0.05 on a decrease, and
succeeds in every transport state (it is a total function that never
inspects the playing flag or the interval start, which it preserves). -/
theorem C9_volume_clamp (increase : Bool) (s : PlayerState)
    (h0 : 0 ≤ s.volume) (h1 : s.volume ≤ 1) :
    (0 ≤ (MusicPlayer.change_volume increase s).volume ∧
      (MusicPlayer.change_volume increase s).volume ≤ 1) ∧
    (increase = true → s.volume + 1/10 ≤ 1 →
      (MusicPlayer.change_volume increase s).volume = s.volume + 1/10) ∧
    (increase = true → 1 ≤ s.volume + 1/10 →
      (MusicPlayer.change_volume increase s).volume = 1) ∧
    (increase = false → 0 ≤ s.volume - 1/10 →
      (MusicPlayer.change_volume increase s).volume = s.volume - 1/10) ∧
    (increase = false → s.volume - 1/10 ≤ 0 →
      (MusicPlayer.change_volume increase s).volume = 0) ∧
    (s.volume = 95/100 → (MusicPlayer.change_volume true s).volume = 1) ∧
    (s.volume = 5/100 → (MusicPlayer.change_volume false s).volume = 0) ∧
    (MusicPlayer.change_volume increase s).playing = s.playing ∧
    (MusicPlayer.change_volume increase s).start_time = s.start_time := by
  refine ⟨?_, ?_, ?_, ?_, ?_, ?_, ?_, rfl, rfl⟩
  · cases increase
    · rw [change_volume_false]
      exact ⟨le_max_left 0 _, max_le (by norm_num) (by linarith)⟩
    · rw [change_volume_true]
      exact ⟨le_min (by norm_num) (by linarith), min_le_left 1 _⟩
  · rintro rfl hle
    rw [change_volume_true]
    exact min_eq_right hle
  · rintro rfl hge
    rw [change_volume_true]
    exact min_eq_left hge
  · rintro rfl hge
    rw [change_volume_false]
    exact max_eq_right hge
  · rintro rfl hle
    rw [change_volume_false]
    exact max_eq_left hle
  · intro hv
    rw [change_volume_true, hv, min_eq_left (by norm_num)]
  · intro hv
    rw [change_volume_false, hv, max_eq_left (by norm_num)]

/-- Witness for C9 at a concrete state with volume 0. -/
theorem C9_witness :
    (0 : ℚ) ≤ ({ MusicPlayer.init [] with volume := 0 } : PlayerState).volume ∧
    ({ MusicPlayer.init [] with volume := 0 } : PlayerState).volume ≤ 1 ∧
    ((0 ≤ (MusicPlayer.change_volume true { MusicPlayer.init [] with volume := 0 }).volume ∧
      (MusicPlayer.change_volume true { MusicPlayer.init [] with volume := 0 }).volume ≤ 1) ∧
    (true = true → ({ MusicPlayer.init [] with volume := 0 } : PlayerState).volume + 1/10 ≤ 1 →
      (MusicPlayer.change_volume true { MusicPlayer.init [] with volume := 0 }).volume =
        ({ MusicPlayer.init [] with volume := 0 } : PlayerState).volume + 1/10) ∧
    (true = true → 1 ≤ ({ MusicPlayer.init [] with volume := 0 } : PlayerState).volume + 1/10 →
      (MusicPlayer.change_volume true { MusicPlayer.init [] with volume := 0 }).volume = 1) ∧
    (true = false → 0 ≤ ({ MusicPlayer.init [] with volume := 0 } : PlayerState).volume - 1/10 →
      (MusicPlayer.change_volume true { MusicPlayer.init [] with volume := 0 }).volume =
        ({ MusicPlayer.init [] with volume := 0 } : PlayerState).volume - 1/10) ∧
    (true = false → ({ MusicPlayer.init [] with volume := 0 } : PlayerState).volume - 1/10 ≤ 0 →
      (MusicPlayer.change_volume true { MusicPlayer.init [] with volume := 0 }).volume = 0) ∧
    (({ MusicPlayer.init [] with volume := 0 } : PlayerState).volume = 95/100 →
      (MusicPlayer.change_volume true { MusicPlayer.init [] with volume := 0 }).volume = 1) ∧
    (({ MusicPlayer.init [] with volume := 0 } : PlayerState).volume = 5/100 →
      (MusicPlayer.change_volume false { MusicPlayer.init [] with volume := 0 }).volume = 0) ∧
    (MusicPlayer.change_volume true { MusicPlayer.init [] with volume := 0 }).playing =
      ({ MusicPlayer.init [] with volume := 0 } : PlayerState).playing ∧
    (MusicPlayer.change_volume true { MusicPlayer.init [] with volume := 0 }).start_time =
      ({ MusicPlayer.init [] with volume := 0 } : PlayerState).start_time) :=
  ⟨le_refl 0, by norm_num [MusicPlayer.init],
   C9_volume_clamp true { MusicPlayer.init [] with volume := 0 } (le_refl 0)
     (by norm_num [MusicPlayer.init])⟩

/-- Counterexample to C3: from the freshly constructed (Stopped) player,
`pause` is not a no-op — it flips the playing flag to true and opens an
elapsed-time interval at the current instant. -/
theorem C3_counterexample :
    (MusicPlayer.init [⟨"a", "a.mp3"⟩]).playing = false ∧
    (MusicPlayer.init [⟨"a", "a.mp3"⟩]).start_time = none ∧
    MusicPlayer.pause 3 (MusicPlayer.init [⟨"a", "a.mp3"⟩]) =
      .ok { MusicPlayer.init [⟨"a", "a.mp3"⟩] with playing := true, start_time := some 3 } ∧
    (pauseState (MusicPlayer.pause 3 (MusicPlayer.init [⟨"a", "a.mp3"⟩]))).playing = true ∧
    (pauseState (MusicPlayer.pause 3 (MusicPlayer.init [⟨"a", "a.mp3"⟩]))).start_time = some 3 :=
  ⟨rfl, rfl, rfl, rfl, rfl⟩

/-- C3 amended: `pause` invoked with the playing flag down (in particular
while Stopped) takes the resume branch: it sets the playing flag and
`start_time := now`, leaving `elapsed_time` and the rest of the state
unchanged. -/
theorem C3_pause_stopped_resumes (now : ℚ) (s : PlayerState) (h : s.playing = false) :
    MusicPlayer.pause now s = .ok { s with playing := true, start_time := some now } := by
  simp [MusicPlayer.pause, h]

/-- Witness for the amended C3 at the freshly constructed player. -/
theorem C3_witness :
    (MusicPlayer.init []).playing = false ∧
    MusicPlayer.pause 3 (MusicPlayer.init []) =
      .ok { MusicPlayer.init [] with playing := true, start_time := some 3 } :=
  ⟨rfl, C3_pause_stopped_resumes 3 (MusicPlayer.init []) rfl⟩

/-- Counterexample to C5: on an empty catalog, `play` with an index
argument mutates `current_index` (and raises no error), so it is not a
no-op on the whole state. -/
theorem C5_counterexample :
    (MusicPlayer.init []).current_index = 0 ∧
    MusicPlayer.play (fun _ => true) 0 (some 3) (MusicPlayer.init []) =
      .ok ({ MusicPlayer.init [] with current_index := 3 }, .skippedEmpty) ∧
    (playState (MusicPlayer.play (fun _ => true) 0 (some 3) (MusicPlayer.init []))).current_index
      = 3 :=
  ⟨rfl, rfl, rfl⟩

/-- C5 amended: `play` on an empty catalog signals no error and silently
skips playback; the only state change is the index assignment performed
before the emptiness check, so the result is exactly `withIndex index s`
(status stays as it was, elapsed bookkeeping untouched). -/
theorem C5_play_empty_silent (loadOk : String → Bool) (now : ℚ) (index : Option Nat)
    (s : PlayerState) (h : s.songs = []) :
    MusicPlayer.play loadOk now index s = .ok (withIndex index s, .skippedEmpty) := by
  have he : (withIndex index s).songs.isEmpty = true := by
    cases index <;> simp [withIndex, h]
  simp [MusicPlayer.play, he]

/-- Witness for the amended C5 on the empty catalog with index 2. -/
theorem C5_witness :
    (MusicPlayer.init []).songs = [] ∧
    MusicPlayer.play (fun _ => false) 4 (some 2) (MusicPlayer.init []) =
      .ok (withIndex (some 2) (MusicPlayer.init []), .skippedEmpty) :=
  ⟨rfl, C5_play_empty_silent (fun _ => false) 4 (some 2) (MusicPlayer.init []) rfl⟩

/-- Counterexample to C7: on an empty catalog, `next_song` and
`previous_song` raise a ZeroDivisionError (the modulo by `len([]) = 0`)
and the `stop` call before it has already reset the accumulated elapsed
time, so the state is changed as well. -/
theorem C7_counterexample :
    MusicPlayer.next_song (fun _ => true) 0 { MusicPlayer.init [] with elapsed_time := 5 } =
      .error (.zeroDivisionError, MusicPlayer.init []) ∧
    MusicPlayer.previous_song (fun _ => true) 0 { MusicPlayer.init [] with elapsed_time := 5 } =
      .error (.zeroDivisionError, MusicPlayer.init []) ∧
    ({ MusicPlayer.init [] with elapsed_time := 5 } : PlayerState).elapsed_time ≠
      (MusicPlayer.init []).elapsed_time := by
  refine ⟨rfl, rfl, ?_⟩
  show (5 : ℚ) ≠ 0
  norm_num

/-- C7 amended: with an empty catalog, `next_song` and `previous_song`
first run `stop` (status Stopped, elapsed bookkeeping cleared) and then
let a ZeroDivisionError escape; they are not silent no-ops. -/
theorem C7_next_prev_empty_raises (loadOk : String → Bool) (now : ℚ) (s : PlayerState)
    (h : s.songs = []) :
    MusicPlayer.next_song loadOk now s = .error (.zeroDivisionError, MusicPlayer.stop s) ∧
    MusicPlayer.previous_song loadOk now s = .error (.zeroDivisionError, MusicPlayer.stop s) := by
  have hl : (MusicPlayer.stop s).songs.length = 0 := by simp [MusicPlayer.stop, h]
  exact ⟨by simp [MusicPlayer.next_song, hl], by simp [MusicPlayer.previous_song, hl]⟩

/-- Witness for the amended C7 on the freshly constructed empty player. -/
theorem C7_witness :
    (MusicPlayer.init []).songs = [] ∧
    MusicPlayer.next_song (fun _ => true) 6 (MusicPlayer.init []) =
      .error (.zeroDivisionError, MusicPlayer.stop (MusicPlayer.init [])) ∧
    MusicPlayer.previous_song (fun _ => true) 6 (MusicPlayer.init []) =
      .error (.zeroDivisionError, MusicPlayer.stop (MusicPlayer.init [])) :=
  ⟨rfl, C7_next_prev_empty_raises (fun _ => true) 6 (MusicPlayer.init []) rfl⟩

/-- C1: elapsed-time interval accounting.  First conjunct: with the
injected clock, after play at t=0, pause at t=5, pause (resume) at t=8, a
`get_elapsed_time` query at t=10 returns exactly 7 seconds.  Remaining
conjuncts: on any state satisfying the reachable-state invariant
`StartIffPlaying`, `get_elapsed_time` returns `elapsed_time` when
`start_time` is unset and `elapsed_time + (now - start_time)` when it is
set.  The query is side-effect-free by construction: the embedded
`get_elapsed_time` returns only a value and no successor state, matching
the assignment-free Python method. -/
theorem C1_elapsed_time_accounting (s : PlayerState) (now : ℚ) (h : StartIffPlaying s) :
    MusicPlayer.get_elapsed_time 10 (pauseState (MusicPlayer.pause 8 (pauseState
        (MusicPlayer.pause 5 (playState (MusicPlayer.play (fun _ => true) 0 none
        (MusicPlayer.init [⟨"a", "a.mp3"⟩]))))))) = 7 ∧
    (s.start_time = none → MusicPlayer.get_elapsed_time now s = s.elapsed_time) ∧
    (∀ t0 : ℚ, s.start_time = some t0 →
      MusicPlayer.get_elapsed_time now s = s.elapsed_time + (now - t0)) := by
  refine ⟨?_, ?_, ?_⟩
  · simp [MusicPlayer.get_elapsed_time, MusicPlayer.pause, MusicPlayer.play, MusicPlayer.init,
      pauseState, playState, withIndex]
    norm_num
  · intro hn
    simp [MusicPlayer.get_elapsed_time, hn]
  · intro t0 ht
    have hp : s.playing = true := by rw [h, ht]; rfl
    simp [MusicPlayer.get_elapsed_time, ht, hp]

/-- Witness for C1 at a concrete open-interval state. -/
theorem C1_witness :
    StartIffPlaying { MusicPlayer.init [] with
      playing := true
      start_time := some 8
      elapsed_time := 5 } ∧
    (MusicPlayer.get_elapsed_time 10 (pauseState (MusicPlayer.pause 8 (pauseState
        (MusicPlayer.pause 5 (playState (MusicPlayer.play (fun _ => true) 0 none
        (MusicPlayer.init [⟨"a", "a.mp3"⟩]))))))) = 7 ∧
    (({ MusicPlayer.init [] with
        playing := true
        start_time := some 8
        elapsed_time := 5 } : PlayerState).start_time = none →
      MusicPlayer.get_elapsed_time 10 { MusicPlayer.init [] with
        playing := true
        start_time := some 8
        elapsed_time := 5 } =
      ({ MusicPlayer.init [] with
        playing := true
        start_time := some 8
        elapsed_time := 5 } : PlayerState).elapsed_time) ∧
    (∀ t0 : ℚ, ({ MusicPlayer.init [] with
        playing := true
        start_time := some 8
        elapsed_time := 5 } : PlayerState).start_time = some t0 →
      MusicPlayer.get_elapsed_time 10 { MusicPlayer.init [] with
        playing := true
        start_time := some 8
        elapsed_time := 5 } =
      ({ MusicPlayer.init [] with
        playing := true
        start_time := some 8
        elapsed_time := 5 } : PlayerState).elapsed_time + (10 - t0))) :=
  ⟨rfl, C1_elapsed_time_accounting
    { MusicPlayer.init [] with
      playing := true
      start_time := some 8
      elapsed_time := 5 } 10 rfl⟩

/-- Counterexample to C4: a successful `play` on a state that had already
accumulated 5 seconds leaves `elapsed_time` at 5, and `get_elapsed_time`
immediately after the call reads 5, not 0. -/
theorem C4_counterexample :
    MusicPlayer.play (fun _ => true) 8 none
        { MusicPlayer.init [⟨"a", "a.mp3"⟩] with elapsed_time := 5 } =
      .ok ({ MusicPlayer.init [⟨"a", "a.mp3"⟩] with
        elapsed_time := 5
        start_time := some 8
        playing := true }, .started) ∧
    (playState (MusicPlayer.play (fun _ => true) 8 none
      { MusicPlayer.init [⟨"a", "a.mp3"⟩] with elapsed_time := 5 })).elapsed_time = 5 ∧
    MusicPlayer.get_elapsed_time 8 (playState (MusicPlayer.play (fun _ => true) 8 none
      { MusicPlayer.init [⟨"a", "a.mp3"⟩] with elapsed_time := 5 })) = 5 ∧
    (5 : ℚ) ≠ 0 := by
  refine ⟨rfl, rfl, ?_, by norm_num⟩
  simp [MusicPlayer.get_elapsed_time, MusicPlayer.play, MusicPlayer.init, playState, withIndex]

/-- C4 amended: a successful `play` (the requested track exists and the
device loads it) sets `start_time := now` and the playing flag, but leaves
`elapsed_time` unchanged instead of resetting it to 0; the
`get_elapsed_time` value immediately after the call equals whatever was
accumulated before it.  (Track switches through `next_song` and
`previous_song` do reset the elapsed time, via their `stop` call.) -/
theorem C4_play_success_keeps_elapsed (loadOk : String → Bool) (now : ℚ) (index : Option Nat)
    (s : PlayerState) (song : Song)
    (hs : (withIndex index s).songs[(withIndex index s).current_index]? = some song)
    (hok : loadOk song.path = true) :
    MusicPlayer.play loadOk now index s =
      .ok ({ withIndex index s with start_time := some now, playing := true }, .started) ∧
    ({ withIndex index s with start_time := some now, playing := true } : PlayerState).elapsed_time
      = s.elapsed_time ∧
    MusicPlayer.get_elapsed_time now
      { withIndex index s with start_time := some now, playing := true } = s.elapsed_time := by
  have hne : (withIndex index s).songs.isEmpty = false := by
    cases hl : (withIndex index s).songs with
    | nil => rw [hl] at hs; simp at hs
    | cons a l => rfl
  have he : (withIndex index s).elapsed_time = s.elapsed_time := by
    cases index <;> rfl
  refine ⟨?_, he, ?_⟩
  · simp [MusicPlayer.play, hne, hs, hok]
  · simp [MusicPlayer.get_elapsed_time, he]

/-- Witness for the amended C4 on a one-track catalog with 5 seconds
already accumulated. -/
theorem C4_witness :
    (withIndex none { MusicPlayer.init [⟨"a", "a.mp3"⟩] with
      elapsed_time := 5 }).songs[(withIndex none { MusicPlayer.init [⟨"a", "a.mp3"⟩] with
      elapsed_time := 5 }).current_index]? = some ⟨"a", "a.mp3"⟩ ∧
    (fun _ : String => true) (Song.mk "a" "a.mp3").path = true ∧
    (MusicPlayer.play (fun _ => true) 8 none
        { MusicPlayer.init [⟨"a", "a.mp3"⟩] with elapsed_time := 5 } =
      .ok ({ withIndex none { MusicPlayer.init [⟨"a", "a.mp3"⟩] with elapsed_time := 5 } with
        start_time := some 8
        playing := true }, .started) ∧
    ({ withIndex none { MusicPlayer.init [⟨"a", "a.mp3"⟩] with elapsed_time := 5 } with
        start_time := some 8
        playing := true } : PlayerState).elapsed_time =
      ({ MusicPlayer.init [⟨"a", "a.mp3"⟩] with elapsed_time := 5 } : PlayerState).elapsed_time ∧
    MusicPlayer.get_elapsed_time 8
      { withIndex none { MusicPlayer.init [⟨"a", "a.mp3"⟩] with elapsed_time := 5 } with
        start_time := some 8
        playing := true } =
      ({ MusicPlayer.init [⟨"a", "a.mp3"⟩] with elapsed_time := 5 } : PlayerState).elapsed_time) :=
  ⟨rfl, rfl, C4_play_success_keeps_elapsed (fun _ => true) 8 none
    { MusicPlayer.init [⟨"a", "a.mp3"⟩] with elapsed_time := 5 } ⟨"a", "a.mp3"⟩ rfl rfl⟩

/-- Counterexample to C8: starting from a state that is Playing (reached
by a successful play of track 0), a device failure while playing track 1
leaves the playing flag true, contradicting the claim that the status is
not Playing after the failure. -/
theorem C8_counterexample :
    (playState (MusicPlayer.play (fun _ => true) 0 none
      (MusicPlayer.init [⟨"a", "a.mp3"⟩, ⟨"b", "b.mp3"⟩]))).playing = true ∧
    MusicPlayer.play (fun _ => false) 5 (some 1)
        (playState (MusicPlayer.play (fun _ => true) 0 none
          (MusicPlayer.init [⟨"a", "a.mp3"⟩, ⟨"b", "b.mp3"⟩]))) =
      .ok ({ playState (MusicPlayer.play (fun _ => true) 0 none
          (MusicPlayer.init [⟨"a", "a.mp3"⟩, ⟨"b", "b.mp3"⟩])) with current_index := 1 },
        .deviceFailed) ∧
    (playState (MusicPlayer.play (fun _ => false) 5 (some 1)
      (playState (MusicPlayer.play (fun _ => true) 0 none
        (MusicPlayer.init [⟨"a", "a.mp3"⟩, ⟨"b", "b.mp3"⟩]))))).playing = true :=
  ⟨rfl, rfl, rfl⟩

/-- C8 amended: when the device fails to load the requested track, `play`
returns with the failure surfaced as the printed-message outcome and the
state unchanged except for `current_index`, which was already set to the
requested index; the playing flag, interval start, elapsed time and volume
all stay exactly as they were before the call (in particular the flag
remains true if the player was Playing). -/
theorem C8_device_failure_keeps_state (loadOk : String → Bool) (now : ℚ) (index : Option Nat)
    (s : PlayerState) (song : Song)
    (hs : (withIndex index s).songs[(withIndex index s).current_index]? = some song)
    (hfail : loadOk song.path = false) :
    MusicPlayer.play loadOk now index s = .ok (withIndex index s, .deviceFailed) ∧
    (playState (MusicPlayer.play loadOk now index s)).playing = s.playing ∧
    (playState (MusicPlayer.play loadOk now index s)).start_time = s.start_time ∧
    (playState (MusicPlayer.play loadOk now index s)).elapsed_time = s.elapsed_time ∧
    (playState (MusicPlayer.play loadOk now index s)).volume = s.volume := by
  have hne : (withIndex index s).songs.isEmpty = false := by
    cases hl : (withIndex index s).songs with
    | nil => rw [hl] at hs; simp at hs
    | cons a l => rfl
  have hmain : MusicPlayer.play loadOk now index s = .ok (withIndex index s, .deviceFailed) := by
    simp [MusicPlayer.play, hne, hs, hfail]
  refine ⟨hmain, ?_, ?_, ?_, ?_⟩ <;> rw [hmain] <;> cases index <;> rfl

/-- Witness for the amended C8 at a concrete Playing state. -/
theorem C8_witness :
    (withIndex (some 1) { MusicPlayer.init [⟨"a", "a.mp3"⟩, ⟨"b", "b.mp3"⟩] with
      playing := true
      start_time := some 0 }).songs[(withIndex (some 1)
        { MusicPlayer.init [⟨"a", "a.mp3"⟩, ⟨"b", "b.mp3"⟩] with
          playing := true
          start_time := some 0 }).current_index]? = some ⟨"b", "b.mp3"⟩ ∧
    (fun _ : String => false) (Song.mk "b" "b.mp3").path = false ∧
    (MusicPlayer.play (fun _ => false) 5 (some 1)
        { MusicPlayer.init [⟨"a", "a.mp3"⟩, ⟨"b", "b.mp3"⟩] with
          playing := true
          start_time := some 0 } =
      .ok (withIndex (some 1) { MusicPlayer.init [⟨"a", "a.mp3"⟩, ⟨"b", "b.mp3"⟩] with
        playing := true
        start_time := some 0 }, .deviceFailed) ∧
    (playState (MusicPlayer.play (fun _ => false) 5 (some 1)
      { MusicPlayer.init [⟨"a", "a.mp3"⟩, ⟨"b", "b.mp3"⟩] with
        playing := true
        start_time := some 0 })).playing =
      ({ MusicPlayer.init [⟨"a", "a.mp3"⟩, ⟨"b", "b.mp3"⟩] with
        playing := true
        start_time := some 0 } : PlayerState).playing ∧
    (playState (MusicPlayer.play (fun _ => false) 5 (some 1)
      { MusicPlayer.init [⟨"a", "a.mp3"⟩, ⟨"b", "b.mp3"⟩] with
        playing := true
        start_time := some 0 })).start_time =
      ({ MusicPlayer.init [⟨"a", "a.mp3"⟩, ⟨"b", "b.mp3"⟩] with
        playing := true
        start_time := some 0 } : PlayerState).start_time ∧
    (playState (MusicPlayer.play (fun _ => false) 5 (some 1)
      { MusicPlayer.init [⟨"a", "a.mp3"⟩, ⟨"b", "b.mp3"⟩] with
        playing := true
        start_time := some 0 })).elapsed_time =
      ({ MusicPlayer.init [⟨"a", "a.mp3"⟩, ⟨"b", "b.mp3"⟩] with
        playing := true
        start_time := some 0 } : PlayerState).elapsed_time ∧
    (playState (MusicPlayer.play (fun _ => false) 5 (some 1)
      { MusicPlayer.init [⟨"a", "a.mp3"⟩, ⟨"b", "b.mp3"⟩] with
        playing := true
        start_time := some 0 })).volume =
      ({ MusicPlayer.init [⟨"a", "a.mp3"⟩, ⟨"b", "b.mp3"⟩] with
        playing := true
        start_time := some 0 } : PlayerState).volume) :=
  ⟨rfl, rfl, C8_device_failure_keeps_state (fun _ => false) 5 (some 1)
    { MusicPlayer.init [⟨"a", "a.mp3"⟩, ⟨"b", "b.mp3"⟩] with
      playing := true
      start_time := some 0 } ⟨"b", "b.mp3"⟩ rfl rfl⟩

/-- Index assignment preserves the interval invariant. -/
theorem startIffPlaying_withIndex (index : Option Nat) (s : PlayerState)
    (h : StartIffPlaying s) : StartIffPlaying (withIndex index s) := by
  cases index <;> exact h

/-- `play` preserves the interval invariant on every branch, the escaping
IndexError included. -/
theorem startIffPlaying_play (loadOk : String → Bool) (now : ℚ) (index : Option Nat)
    (s : PlayerState) (h : StartIffPlaying s) :
    StartIffPlaying (playState (MusicPlayer.play loadOk now index s)) := by
  have h1 := startIffPlaying_withIndex index s h
  unfold MusicPlayer.play
  split
  · exact h1
  · split
    · exact h1
    · split
      · exact rfl
      · exact h1

/-- `pause` preserves the interval invariant on every branch. -/
theorem startIffPlaying_pause (now : ℚ) (s : PlayerState) (h : StartIffPlaying s) :
    StartIffPlaying (pauseState (MusicPlayer.pause now s)) := by
  unfold MusicPlayer.pause
  split
  · split
    · exact h
    · exact rfl
  · exact rfl

/-- `stop` establishes the interval invariant outright. -/
theorem startIffPlaying_stop (s : PlayerState) : StartIffPlaying (MusicPlayer.stop s) := rfl

/-- `next_song` establishes the interval invariant, with or without an
escaping ZeroDivisionError. -/
theorem startIffPlaying_next (loadOk : String → Bool) (now : ℚ) (s : PlayerState) :
    StartIffPlaying (playState (MusicPlayer.next_song loadOk now s)) := by
  unfold MusicPlayer.next_song
  split
  · exact rfl
  · exact startIffPlaying_play loadOk now none _ rfl

/-- `previous_song` establishes the interval invariant, with or without an
escaping ZeroDivisionError. -/
theorem startIffPlaying_prev (loadOk : String → Bool) (now : ℚ) (s : PlayerState) :
    StartIffPlaying (playState (MusicPlayer.previous_song loadOk now s)) := by
  unfold MusicPlayer.previous_song
  split
  · exact rfl
  · exact startIffPlaying_play loadOk now none _ rfl

/-- C2: state-machine invariant.  On every state reachable from
construction through any sequence of play, pause, stop, next, previous and
volume operations (with arbitrary injected clocks and device outcomes, and
including the states left behind by escaping exceptions), `start_time` is
set if and only if the `playing` flag is true. -/
theorem C2_start_iff_playing (s : PlayerState) (h : Reachable s) : StartIffPlaying s := by
  induction h with
  | init songs => exact rfl
  | play loadOk now index s _ ih => exact startIffPlaying_play loadOk now index s ih
  | pause now s _ ih => exact startIffPlaying_pause now s ih
  | stop s _ _ => exact startIffPlaying_stop s
  | next loadOk now s _ _ => exact startIffPlaying_next loadOk now s
  | prev loadOk now s _ _ => exact startIffPlaying_prev loadOk now s
  | vol increase s _ ih => exact ih

/-- Witness for C2 on the state reached by construction, play, pause. -/
theorem C2_witness :
    StartIffPlaying (pauseState (MusicPlayer.pause 5 (playState (MusicPlayer.play
      (fun _ => true) 0 none (MusicPlayer.init [⟨"a", "a.mp3"⟩]))))) :=
  C2_start_iff_playing _ (Reachable.pause 5 _ (Reachable.play (fun _ => true) 0 none _
    (Reachable.init [⟨"a", "a.mp3"⟩])))

/-- A `play` call without an index argument keeps the catalog and the
current index, on every branch. -/
theorem play_none_fields (loadOk : String → Bool) (now : ℚ) (s : PlayerState) :
    (playState (MusicPlayer.play loadOk now none s)).songs = s.songs ∧
    (playState (MusicPlayer.play loadOk now none s)).current_index = s.current_index := by
  unfold MusicPlayer.play
  split
  · exact ⟨rfl, rfl⟩
  · split
    · exact ⟨rfl, rfl⟩
    · split
      · exact ⟨rfl, rfl⟩
      · exact ⟨rfl, rfl⟩

/-- On a non-empty catalog, `next_song` keeps the catalog and advances the
index by one, wrapping modulo the catalog size, whatever the device
does. -/
theorem next_song_fields (loadOk : String → Bool) (now : ℚ) (s : PlayerState)
    (hN : s.songs.length ≠ 0) :
    (playState (MusicPlayer.next_song loadOk now s)).songs = s.songs ∧
    (playState (MusicPlayer.next_song loadOk now s)).current_index
      = (s.current_index + 1) % s.songs.length := by
  have hN2 : (MusicPlayer.stop s).songs.length ≠ 0 := hN
  unfold MusicPlayer.next_song
  rw [if_neg hN2]
  constructor
  · exact (play_none_fields loadOk now _).1
  · exact (play_none_fields loadOk now _).2

/-- On a non-empty catalog, `previous_song` keeps the catalog and moves
the index back by one with Python floor-modulo wrapping. -/
theorem prev_song_fields (loadOk : String → Bool) (now : ℚ) (s : PlayerState)
    (hN : s.songs.length ≠ 0) :
    (playState (MusicPlayer.previous_song loadOk now s)).songs = s.songs ∧
    (playState (MusicPlayer.previous_song loadOk now s)).current_index
      = (((s.current_index : Int) - 1) % (s.songs.length : Int)).toNat := by
  have hN2 : (MusicPlayer.stop s).songs.length ≠ 0 := hN
  unfold MusicPlayer.previous_song
  rw [if_neg hN2]
  constructor
  · exact (play_none_fields loadOk now _).1
  · exact (play_none_fields loadOk now _).2

/-- Iterating `next_song` k times keeps the catalog and adds k to the
index modulo the catalog size. -/
theorem next_iter_fields (loadOk : String → Bool) (now : ℚ) (s : PlayerState)
    (hN : s.songs.length ≠ 0) (hi : s.current_index < s.songs.length) (k : Nat) :
    ((fun t => playState (MusicPlayer.next_song loadOk now t))^[k] s).songs = s.songs ∧
    ((fun t => playState (MusicPlayer.next_song loadOk now t))^[k] s).current_index
      = (s.current_index + k) % s.songs.length := by
  induction k with
  | zero => simpa using (Nat.mod_eq_of_lt hi).symm
  | succ k ih =>
    rw [Function.iterate_succ_apply']
    obtain ⟨hsongs, hind⟩ := ih
    have h2 := next_song_fields loadOk now
      ((fun t => playState (MusicPlayer.next_song loadOk now t))^[k] s)
      (by rw [hsongs]; exact hN)
    constructor
    · rw [h2.1, hsongs]
    · rw [h2.2, hind, hsongs, Nat.mod_add_mod, Nat.add_assoc]

/-- Stepping back by one with floor-modulo undoes stepping forward by one
modulo N, for an index below N. -/
theorem pred_of_succ_mod (i N : Nat) (hi : i < N) :
    ((((i + 1) % N : Nat) : Int) - 1) % (N : Int) = (i : Int) := by
  rcases Nat.lt_or_ge (i + 1) N with h | h
  · rw [Nat.mod_eq_of_lt h]
    have he : ((i + 1 : Nat) : Int) - 1 = (i : Int) := by push_cast; ring
    rw [he, Int.emod_eq_of_lt (by positivity) (by exact_mod_cast hi)]
  · have hEq : i + 1 = N := Nat.le_antisymm hi h
    rw [hEq, Nat.mod_self]
    have h1 : ((0 : Nat) : Int) - 1 = -1 := by norm_num
    rw [h1]
    have h2 : (-1 : Int) % (N : Int) = ((N : Int) - 1) % (N : Int) := by
      conv_rhs => rw [sub_eq_add_neg, add_comm]
      rw [show ((-1 : Int) + N) = -1 + N * 1 by ring]
      exact (Int.add_mul_emod_self_left (-1) N 1).symm
    rw [h2, Int.emod_eq_of_lt (by omega) (by omega)]
    omega

/-- C6: wrap-around navigation.  For any catalog of size N bigger than 0
and any current index below N, applying `next_song` N times (under any
injected clock and device oracle) brings `current_index` back to its
starting value, and `previous_song` undoes `next_song` on
`current_index`. -/
theorem C6_wrap_around (loadOk : String → Bool) (now : ℚ) (s : PlayerState)
    (hN : 0 < s.songs.length) (hi : s.current_index < s.songs.length) :
    ((fun t => playState (MusicPlayer.next_song loadOk now t))^[s.songs.length] s).current_index
      = s.current_index ∧
    (playState (MusicPlayer.previous_song loadOk now
      (playState (MusicPlayer.next_song loadOk now s)))).current_index = s.current_index := by
  constructor
  · rw [(next_iter_fields loadOk now s hN.ne' hi s.songs.length).2, Nat.add_mod_right,
      Nat.mod_eq_of_lt hi]
  · have h1 := next_song_fields loadOk now s hN.ne'
    have h2 := prev_song_fields loadOk now
      (playState (MusicPlayer.next_song loadOk now s)) (by rw [h1.1]; exact hN.ne')
    rw [h2.2, h1.2, h1.1, pred_of_succ_mod s.current_index s.songs.length hi,
      Int.toNat_natCast]

/-- Witness for C6 on a three-track catalog. -/
theorem C6_witness :
    0 < (MusicPlayer.init [⟨"a", "a.mp3"⟩, ⟨"b", "b.mp3"⟩, ⟨"c", "c.mp3"⟩]).songs.length ∧
    (MusicPlayer.init [⟨"a", "a.mp3"⟩, ⟨"b", "b.mp3"⟩, ⟨"c", "c.mp3"⟩]).current_index <
      (MusicPlayer.init [⟨"a", "a.mp3"⟩, ⟨"b", "b.mp3"⟩, ⟨"c", "c.mp3"⟩]).songs.length ∧
    (((fun t => playState (MusicPlayer.next_song (fun _ => true) 7 t))^[
        (MusicPlayer.init [⟨"a", "a.mp3"⟩, ⟨"b", "b.mp3"⟩, ⟨"c", "c.mp3"⟩]).songs.length]
        (MusicPlayer.init [⟨"a", "a.mp3"⟩, ⟨"b", "b.mp3"⟩, ⟨"c", "c.mp3"⟩])).current_index
      = (MusicPlayer.init [⟨"a", "a.mp3"⟩, ⟨"b", "b.mp3"⟩, ⟨"c", "c.mp3"⟩]).current_index ∧
    (playState (MusicPlayer.previous_song (fun _ => true) 7
      (playState (MusicPlayer.next_song (fun _ => true) 7
        (MusicPlayer.init [⟨"a", "a.mp3"⟩, ⟨"b", "b.mp3"⟩, ⟨"c", "c.mp3"⟩]))))).current_index
      = (MusicPlayer.init [⟨"a", "a.mp3"⟩, ⟨"b", "b.mp3"⟩, ⟨"c", "c.mp3"⟩]).current_index) :=
  ⟨by decide, by decide, C6_wrap_around (fun _ => true) 7
    (MusicPlayer.init [⟨"a", "a.mp3"⟩, ⟨"b", "b.mp3"⟩, ⟨"c", "c.mp3"⟩]) (by decide) (by decide)⟩

end Music
